import Mathlib

/-!
# dhcpcd: the udev device-event adapter (`src/dev/udev.c`)

A shallow embedding of the five operations of the plugin
(`udev_settled`, `udev_handledata`, `udev_listening`, `udev_stop`,
`udev_start`) over its three file-scope variables (`udev`, `monitor`,
`monitor_fd`).

* Pointers to library objects are `Option Nat`: `none` is `NULL`, `some h`
  a live object with identity `h`.
* `int` values that only travel (descriptors, return codes) are `Int`; the
  code does no arithmetic on them.
* Every call that leaves the file (libudev, the event loop, the daemon,
  syslog) is appended to a list of `Call`s, in program order, so that "makes
  exactly one notification" or "registers nothing" are statements about that
  list. Results of library calls are not computed here: they are inputs
  (`StartEnv`, the received `Device`, `Service`), so every theorem holds for
  every outcome of the external steps.
* `#ifdef LIBUDEV_FILTER` is a build-time switch; it is the Boolean parameter
  `LIBUDEV_FILTER` of `udev_start`.
-/

namespace Udev

/-! ## Data model -/

/-- The two syslog priorities the file uses. -/
inductive Priority
  | LOG_ERR
  | LOG_DEBUG
  deriving DecidableEq, Repr

/-- A `struct udev_device` as far as this file reads it: the strings returned
by `udev_device_get_subsystem`, `udev_device_get_sysname` and
`udev_device_get_action`, and the integer returned by
`udev_device_get_is_initialized`. The three strings are C strings, compared
with `strcmp(..) == 0`, which is equality of `String`s; a record for which a
getter returns `NULL` is outside the model. -/
structure Device where
  subsystem : String
  sysname : String
  action : String
  is_initialized : Int
  deriving DecidableEq, Repr

/-- The callbacks this file hands to the event loop: there is only one. -/
inductive Callback
  | udev_handledata
  deriving DecidableEq, Repr

/-- One call leaving the file, with the arguments passed and, for calls whose
result the code uses, the result that came back. Attribute getters on a
`Device` are field reads and are not recorded. -/
inductive Call
  | syslog (priority : Priority) (msg : String)
  | udev_new (ret : Option Nat)
  | udev_monitor_new_from_netlink (udev : Nat) (name : String) (ret : Option Nat)
  | udev_monitor_filter_add_match_subsystem_devtype
      (monitor : Nat) (subsystem : String) (devtype : Option String) (ret : Int)
  | udev_monitor_enable_receiving (monitor : Nat) (ret : Int)
  | udev_monitor_get_fd (monitor : Nat) (ret : Int)
  | eloop_event_add (fd : Int) (callback : Callback) (ret : Int)
  | eloop_event_delete (fd : Int)
  | udev_monitor_unref (monitor : Nat)
  | udev_unref (udev : Nat)
  | udev_monitor_receive_device (monitor : Option Nat) (ret : Option Device)
  | udev_device_new_from_subsystem_sysname
      (udev : Option Nat) (subsystem : String) (sysname : String) (ret : Option Device)
  | udev_device_unref (device : Device)
  | handle_interface (action : Int) (ifname : String)
  deriving DecidableEq, Repr

/-- The file-scope variables `udev`, `monitor` and `monitor_fd`. -/
structure State where
  udev : Option Nat
  monitor : Option Nat
  monitor_fd : Int
  deriving DecidableEq, Repr

/-- The static initialisers: `udev` and `monitor` are `NULL`,
`monitor_fd = -1`. -/
def State.init : State := ⟨none, none, -1⟩

/-- What a C function leaves behind: the value returned, the variables
afterwards and the external calls made, in order. -/
structure Outcome (α : Type) where
  ret : α
  state : State
  calls : List Call

/-- The results of the external calls inside one run of `udev_start`, in the
order the code makes them. A result is read only if the code reaches the
call. -/
structure StartEnv where
  udev_new : Option Nat
  udev_monitor_new_from_netlink : Option Nat
  udev_monitor_filter_add_match_subsystem_devtype : Int
  udev_monitor_enable_receiving : Int
  udev_monitor_get_fd : Int
  eloop_event_add : Int
  deriving DecidableEq, Repr

/-- The device database of the host service seen through
`udev_device_new_from_subsystem_sysname(udev, subsystem, sysname)`:
`none` is a `NULL` result. -/
structure Service where
  udev_device_new_from_subsystem_sysname : Option Nat → String → String → Option Device

/-! ## The operations -/

/-- `udev_settled` (udev.c 43-56). -/
def udev_settled (svc : Service) (ifname : String) (s : State) : Outcome Int :=
  let device := svc.udev_device_new_from_subsystem_sysname s.udev "net" ifname
  let t := [Call.udev_device_new_from_subsystem_sysname s.udev "net" ifname device]
  match device with
  | some d => ⟨d.is_initialized, s, t ++ [Call.udev_device_unref d]⟩
  | none => ⟨0, s, t⟩

/-- `udev_handledata` (udev.c 58-84); `received` is what
`udev_monitor_receive_device(monitor)` returns. -/
def udev_handledata (received : Option Device) (s : State) : Outcome Unit :=
  let t := [Call.udev_monitor_receive_device s.monitor received]
  match received with
  | none => ⟨(), s, t ++ [Call.syslog Priority.LOG_DEBUG "libudev: received NULL device"]⟩
  | some device =>
    let subsystem := device.subsystem
    let ifname := device.sysname
    let action := device.action
    let t :=
      if subsystem = "net" then
        let t := t ++ [Call.syslog Priority.LOG_DEBUG (ifname ++ ": libudev: " ++ action)]
        if action = "add" ∨ action = "move" then
          t ++ [Call.handle_interface 1 ifname]
        else if action = "remove" then
          t ++ [Call.handle_interface (-1) ifname]
        else t
      else t
    ⟨(), s, t ++ [Call.udev_device_unref device]⟩

/-- `udev_listening` (udev.c 86-91). -/
def udev_listening (s : State) : Int :=
  if s.monitor.isSome then 1 else 0

/-- `udev_stop` (udev.c 93-111): three independent guarded releases. -/
def udev_stop (s : State) : Outcome Unit :=
  let r : State × List Call :=
    if s.monitor_fd ≠ -1 then
      ({ s with monitor_fd := -1 }, [Call.eloop_event_delete s.monitor_fd])
    else (s, [])
  let r : State × List Call :=
    match r.1.monitor with
    | some m => ({ r.1 with monitor := none }, r.2 ++ [Call.udev_monitor_unref m])
    | none => r
  let r : State × List Call :=
    match r.1.udev with
    | some u => ({ r.1 with udev := none }, r.2 ++ [Call.udev_unref u])
    | none => r
  ⟨(), r.1, r.2⟩

/-- The `bad:` label of `udev_start` (udev.c 157-160): `udev_stop(); return -1;`
reached in state `s` after the calls `t`. -/
def udev_start_bad (s : State) (t : List Call) : Outcome Int :=
  let r := udev_stop s
  ⟨-1, r.state, t ++ r.calls⟩

/-- `udev_start` (udev.c 113-161). `LIBUDEV_FILTER` says whether the file was
built with that symbol defined. -/
def udev_start (LIBUDEV_FILTER : Bool) (env : StartEnv) (s : State) : Outcome Int :=
  if s.udev.isSome then
    ⟨-1, s, [Call.syslog Priority.LOG_ERR "udev: already started"]⟩
  else
    let t := [Call.syslog Priority.LOG_DEBUG "udev: starting", Call.udev_new env.udev_new]
    let s := { s with udev := env.udev_new }
    match env.udev_new with
    | none => ⟨-1, s, t ++ [Call.syslog Priority.LOG_ERR "udev_new: %m"]⟩
    | some u =>
      let t := t ++ [Call.udev_monitor_new_from_netlink u "udev" env.udev_monitor_new_from_netlink]
      let s := { s with monitor := env.udev_monitor_new_from_netlink }
      match env.udev_monitor_new_from_netlink with
      | none =>
        udev_start_bad s (t ++ [Call.syslog Priority.LOG_ERR "udev_monitor_new_from_netlink: %m"])
      | some m =>
        let filterCall := Call.udev_monitor_filter_add_match_subsystem_devtype m "net" none
          env.udev_monitor_filter_add_match_subsystem_devtype
        if LIBUDEV_FILTER && env.udev_monitor_filter_add_match_subsystem_devtype != 0 then
          udev_start_bad s (t ++ [filterCall, Call.syslog Priority.LOG_ERR
            "udev_monitor_filter_add_match_subsystem_devtype: %m"])
        else
          let t := if LIBUDEV_FILTER then t ++ [filterCall] else t
          let t := t ++ [Call.udev_monitor_enable_receiving m env.udev_monitor_enable_receiving]
          if env.udev_monitor_enable_receiving ≠ 0 then
            udev_start_bad s (t ++ [Call.syslog Priority.LOG_ERR "udev_monitor_enable_receiving: %m"])
          else
            let t := t ++ [Call.udev_monitor_get_fd m env.udev_monitor_get_fd]
            let s := { s with monitor_fd := env.udev_monitor_get_fd }
            if s.monitor_fd = -1 then
              udev_start_bad s (t ++ [Call.syslog Priority.LOG_ERR "udev_monitor_get_fd: %m"])
            else
              let t := t ++ [Call.eloop_event_add s.monitor_fd Callback.udev_handledata
                env.eloop_event_add]
              if env.eloop_event_add = -1 then
                udev_start_bad s (t ++ [Call.syslog Priority.LOG_ERR "udev_start: eloop_event_add: %m"])
              else
                ⟨s.monitor_fd, s, t⟩

/-- The statements of `udev_start` before the `bad:` label (udev.c 117-156),
with the jump kept apart from the cleanup: `ret` is `some r` where the code
executes `return r`, and `none` where it executes `goto bad`; the variables
and the calls are those at that point. `udev_start` is this followed, after a
`goto bad`, by `udev_start_bad` (theorem `udev_start_eq_body`). -/
def udev_start_body (LIBUDEV_FILTER : Bool) (env : StartEnv) (s : State) :
    Outcome (Option Int) :=
  if s.udev.isSome then
    ⟨some (-1), s, [Call.syslog Priority.LOG_ERR "udev: already started"]⟩
  else
    let t := [Call.syslog Priority.LOG_DEBUG "udev: starting", Call.udev_new env.udev_new]
    let s := { s with udev := env.udev_new }
    match env.udev_new with
    | none => ⟨some (-1), s, t ++ [Call.syslog Priority.LOG_ERR "udev_new: %m"]⟩
    | some u =>
      let t := t ++ [Call.udev_monitor_new_from_netlink u "udev" env.udev_monitor_new_from_netlink]
      let s := { s with monitor := env.udev_monitor_new_from_netlink }
      match env.udev_monitor_new_from_netlink with
      | none =>
        ⟨none, s, t ++ [Call.syslog Priority.LOG_ERR "udev_monitor_new_from_netlink: %m"]⟩
      | some m =>
        let filterCall := Call.udev_monitor_filter_add_match_subsystem_devtype m "net" none
          env.udev_monitor_filter_add_match_subsystem_devtype
        if LIBUDEV_FILTER && env.udev_monitor_filter_add_match_subsystem_devtype != 0 then
          ⟨none, s, t ++ [filterCall, Call.syslog Priority.LOG_ERR
            "udev_monitor_filter_add_match_subsystem_devtype: %m"]⟩
        else
          let t := if LIBUDEV_FILTER then t ++ [filterCall] else t
          let t := t ++ [Call.udev_monitor_enable_receiving m env.udev_monitor_enable_receiving]
          if env.udev_monitor_enable_receiving ≠ 0 then
            ⟨none, s, t ++ [Call.syslog Priority.LOG_ERR "udev_monitor_enable_receiving: %m"]⟩
          else
            let t := t ++ [Call.udev_monitor_get_fd m env.udev_monitor_get_fd]
            let s := { s with monitor_fd := env.udev_monitor_get_fd }
            if s.monitor_fd = -1 then
              ⟨none, s, t ++ [Call.syslog Priority.LOG_ERR "udev_monitor_get_fd: %m"]⟩
            else
              let t := t ++ [Call.eloop_event_add s.monitor_fd Callback.udev_handledata
                env.eloop_event_add]
              if env.eloop_event_add = -1 then
                ⟨none, s, t ++ [Call.syslog Priority.LOG_ERR "udev_start: eloop_event_add: %m"]⟩
              else
                ⟨some s.monitor_fd, s, t⟩

/-- The whole of `udev_start` put together from its body and the `bad:`
label: a `return r` ends the call, a `goto bad` runs `udev_start_bad`. -/
def udev_start_of_body (b : Outcome (Option Int)) : Outcome Int :=
  match b.ret with
  | some r => ⟨r, b.state, b.calls⟩
  | none => udev_start_bad b.state b.calls

/-! ## Sequences of calls made by the daemon -/

/-- One call from the daemon or the event loop into the adapter, with the
outcomes of the external steps that call will meet. -/
inductive Op
  | start (env : StartEnv)
  | stop
  | handledata (received : Option Device)
  deriving DecidableEq, Repr

/-- A call that has run: a start together with the value it returned, a
stop, or a run of the event handler. -/
inductive Done
  | start (ret : Int)
  | stop
  | handledata
  deriving DecidableEq, Repr

/-- Run one call. -/
def step (LIBUDEV_FILTER : Bool) (s : State) : Op → Outcome Done
  | Op.start env =>
    let r := udev_start LIBUDEV_FILTER env s
    ⟨Done.start r.ret, r.state, r.calls⟩
  | Op.stop =>
    let r := udev_stop s
    ⟨Done.stop, r.state, r.calls⟩
  | Op.handledata received =>
    let r := udev_handledata received s
    ⟨Done.handledata, r.state, r.calls⟩

/-- Run a sequence of calls one after the other from state `s`; the result
lists the calls that ran (oldest first), the final variables and all external
calls made. -/
def run (LIBUDEV_FILTER : Bool) (s : State) : List Op → Outcome (List Done)
  | [] => ⟨[], s, []⟩
  | op :: ops =>
    let r := step LIBUDEV_FILTER s op
    let rest := run LIBUDEV_FILTER r.state ops
    ⟨r.ret :: rest.ret, rest.state, r.calls ++ rest.calls⟩

/-- A start succeeded when it did not return the failure value `-1`. -/
def startSucceeded (ret : Int) : Bool := ret != -1

/-- The C3 sentence as written, read off a list of calls given most recent
first: the most recent start succeeded and no stop has followed it. Going
back in time, a stop met before any start answers no; the first start met
answers by its own success; with no start at all the answer is no. -/
def lastStartSucceededNoStopSince : List Done → Bool
  | [] => false
  | Done.stop :: _ => false
  | Done.start ret :: _ => startSucceeded ret
  | Done.handledata :: earlier => lastStartSucceededNoStopSince earlier

/-- The amended C3 sentence, on a list of calls given most recent first: some
start succeeded and no stop has followed that start. Going back in time, a
stop answers no, a successful start answers yes, and a failed start is
skipped. -/
def someStartSucceededNoStopSince : List Done → Bool
  | [] => false
  | Done.stop :: _ => false
  | Done.start ret :: earlier =>
    if startSucceeded ret then true else someStartSucceededNoStopSince earlier
  | Done.handledata :: earlier => someStartSucceededNoStopSince earlier

/-- The daemon notifications in a list of calls: the `(action, ifname)` of
each `handle_interface`, in order. -/
def notifications : List Call → List (Int × String)
  | [] => []
  | Call.handle_interface a n :: cs => (a, n) :: notifications cs
  | _ :: cs => notifications cs

/-- The descriptors a list of calls asks the event loop to deregister, in
order. -/
def deregistrations : List Call → List Int
  | [] => []
  | Call.eloop_event_delete fd :: cs => fd :: deregistrations cs
  | _ :: cs => deregistrations cs

/-- Whether a call opens a library object or registers with the event loop. -/
def Call.acquires : Call → Bool
  | Call.udev_new _ => true
  | Call.udev_monitor_new_from_netlink _ _ _ => true
  | Call.eloop_event_add _ _ _ => true
  | _ => false

/-- Whether a call deregisters from the event loop or releases the monitor or
the service handle. -/
def Call.releases : Call → Bool
  | Call.eloop_event_delete _ => true
  | Call.udev_monitor_unref _ => true
  | Call.udev_unref _ => true
  | _ => false

/-- Modelled from the spec: the event loop (eloop.c, not among the sources)
as the list of descriptors currently registered with it. A descriptor is
registered by an `eloop_event_add` that did not fail (the code tests the
result against `-1`) and stops being registered at the next
`eloop_event_delete` of it; no other call touches the event loop. -/
def eloop (registered : List Int) : Call → List Int
  | Call.eloop_event_add fd _ ret => if ret = -1 then registered else fd :: registered
  | Call.eloop_event_delete fd => registered.erase fd
  | _ => registered

/-- The descriptors registered with the event loop after the calls `cs`,
starting from the descriptors `registered`. -/
def registeredAfter (registered : List Int) (cs : List Call) : List Int :=
  cs.foldl eloop registered

/-- Every `eloop_event_delete` in `cs` names a descriptor that is registered
with the event loop at the moment of the call. -/
def deregistersOnlyRegistered (registered : List Int) : List Call → Bool
  | [] => true
  | Call.eloop_event_delete fd :: cs =>
    decide (fd ∈ registered) && deregistersOnlyRegistered (registered.erase fd) cs
  | c :: cs => deregistersOnlyRegistered (eloop registered c) cs

/-- Some `eloop_event_add` in `cs` returned the failure value `-1`. -/
def registrationFailed : List Call → Bool
  | [] => false
  | Call.eloop_event_add _ _ ret :: cs => ret == -1 || registrationFailed cs
  | _ :: cs => registrationFailed cs

/-- The three variables agree: the service handle is held iff the monitor is
held iff the stored descriptor is not `-1`. -/
def State.agree (s : State) : Prop :=
  (s.udev.isSome ↔ s.monitor.isSome) ∧ (s.monitor.isSome ↔ s.monitor_fd ≠ -1)

/-- The descriptors the stored descriptor accounts for: none when
`monitor_fd` is `-1`, otherwise `monitor_fd` alone. -/
def State.registered (s : State) : List Int :=
  if s.monitor_fd = -1 then [] else [s.monitor_fd]

/-- Some step of a start fails, for a start that gets past the
"already started" guard. Failure of a step is the test the code makes on its
result: `NULL` for the two constructors, `!= 0` for the filter (when built in)
and the enabling, `== -1` for the descriptor and the registration. The first
failing step is the one the code stops at. -/
def StartEnv.someStepFails (LIBUDEV_FILTER : Bool) (env : StartEnv) : Prop :=
  env.udev_new = none ∨
  env.udev_monitor_new_from_netlink = none ∨
  (LIBUDEV_FILTER = true ∧ env.udev_monitor_filter_add_match_subsystem_devtype ≠ 0) ∨
  env.udev_monitor_enable_receiving ≠ 0 ∨
  env.udev_monitor_get_fd = -1 ∨
  env.eloop_event_add = -1

/-- Every step of a start succeeds: both objects are created, the filter (when
built in) and the enabling return `0`, and neither the descriptor nor the
registration result is `-1`. -/
def StartEnv.allStepsSucceed (LIBUDEV_FILTER : Bool) (env : StartEnv) : Prop :=
  env.udev_new ≠ none ∧
  env.udev_monitor_new_from_netlink ≠ none ∧
  (LIBUDEV_FILTER = true → env.udev_monitor_filter_add_match_subsystem_devtype = 0) ∧
  env.udev_monitor_enable_receiving = 0 ∧
  env.udev_monitor_get_fd ≠ -1 ∧
  env.eloop_event_add ≠ -1

/-! ## Facts about single operations -/

theorem udev_stop_state (s : State) : (udev_stop s).state = State.init := by
  rcases s with ⟨u, m, fd⟩
  cases u <;> cases m <;> by_cases h : fd = -1 <;> simp [udev_stop, State.init, h]

theorem udev_stop_calls_init : (udev_stop State.init).calls = [] := by
  simp [udev_stop, State.init]

theorem udev_stop_deregistrations (s : State) :
    deregistrations (udev_stop s).calls =
      if s.monitor_fd = -1 then [] else [s.monitor_fd] := by
  rcases s with ⟨u, m, fd⟩
  cases u <;> cases m <;> by_cases h : fd = -1 <;>
    simp [udev_stop, deregistrations, h]

theorem agree_init : State.init.agree := by
  simp [State.agree, State.init]

theorem eq_init_of_agree (s : State) (hu : s.udev = none) (ha : s.agree) :
    s = State.init := by
  rcases s with ⟨u, m, fd⟩
  simp only [State.agree] at ha
  simp only at hu
  subst hu
  cases m with
  | none =>
    have : fd = -1 := by
      by_contra h
      have := ha.2.2 h
      simp at this
    simp [State.init, this]
  | some m => simp at ha

theorem udev_start_started (F : Bool) (env : StartEnv) (s : State) (h : s.udev.isSome) :
    udev_start F env s =
      ⟨-1, s, [Call.syslog Priority.LOG_ERR "udev: already started"]⟩ := by
  simp [udev_start, h]

theorem udev_start_fails (F : Bool) (env : StartEnv) (h : env.someStepFails F) :
    (udev_start F env State.init).ret = -1 ∧
      (udev_start F env State.init).state = State.init := by
  rcases env with ⟨u, m, fr, er, fd, ar⟩
  simp only [StartEnv.someStepFails] at h
  cases u with
  | none => simp [udev_start, State.init]
  | some u =>
    cases m with
    | none => simp [udev_start, udev_start_bad, udev_stop_state, State.init]
    | some m =>
      simp only [udev_start, udev_start_bad, udev_stop_state, State.init]
      cases F <;> by_cases h1 : fr = 0 <;> by_cases h2 : er = 0 <;>
        by_cases h3 : fd = -1 <;> by_cases h4 : ar = -1 <;>
        simp_all [State.init]

theorem udev_start_succeeds (F : Bool) (env : StartEnv) (s : State) (hs : s.udev = none)
    (h : env.allStepsSucceed F) :
    (udev_start F env s).ret = env.udev_monitor_get_fd ∧
      (udev_start F env s).state =
        ⟨env.udev_new, env.udev_monitor_new_from_netlink, env.udev_monitor_get_fd⟩ := by
  rcases env with ⟨u, m, fr, er, fd, ar⟩
  rcases s with ⟨su, sm, sfd⟩
  simp only [StartEnv.allStepsSucceed] at h
  obtain ⟨hu, hm, hf, he, hfd, har⟩ := h
  simp only at hs
  subst hs
  cases u with
  | none => simp at hu
  | some u =>
    cases m with
    | none => simp at hm
    | some m =>
      cases F <;> simp_all [udev_start]

theorem someStepFails_or_allStepsSucceed (F : Bool) (env : StartEnv) :
    env.someStepFails F ∨ env.allStepsSucceed F := by
  rcases env with ⟨u, m, fr, er, fd, ar⟩
  simp only [StartEnv.someStepFails, StartEnv.allStepsSucceed]
  cases u <;> cases m <;> cases F <;> by_cases h1 : fr = 0 <;> by_cases h2 : er = 0 <;>
    by_cases h3 : fd = -1 <;> by_cases h4 : ar = -1 <;> simp_all

/-! ## Facts about sequences of calls -/

theorem udev_start_agree (F : Bool) (env : StartEnv) (s : State) (ha : s.agree) :
    (udev_start F env s).state.agree := by
  cases hu : s.udev with
  | some u =>
    rw [udev_start_started F env s (by simp [hu])]
    exact ha
  | none =>
    have hs := eq_init_of_agree s hu ha
    subst hs
    rcases someStepFails_or_allStepsSucceed F env with hf | hok
    · rw [(udev_start_fails F env hf).2]
      exact agree_init
    · rw [(udev_start_succeeds F env State.init hu hok).2]
      obtain ⟨h1, h2, -, -, h5, -⟩ := hok
      simp [State.agree, Option.isSome_iff_ne_none, h1, h2, h5]

theorem udev_start_listening (F : Bool) (env : StartEnv) (s : State) (ha : s.agree) :
    udev_listening (udev_start F env s).state = 1 ↔
      (startSucceeded (udev_start F env s).ret = true ∨ udev_listening s = 1) := by
  cases hu : s.udev with
  | some u =>
    rw [udev_start_started F env s (by simp [hu])]
    simp [startSucceeded]
  | none =>
    have hs := eq_init_of_agree s hu ha
    subst hs
    rcases someStepFails_or_allStepsSucceed F env with hf | hok
    · rw [(udev_start_fails F env hf).2, (udev_start_fails F env hf).1]
      simp [startSucceeded]
    · rw [(udev_start_succeeds F env State.init hu hok).2,
        (udev_start_succeeds F env State.init hu hok).1]
      obtain ⟨h1, h2, -, -, h5, -⟩ := hok
      simp [startSucceeded, udev_listening, Option.isSome_iff_ne_none, h2, h5]

theorem step_agree (F : Bool) (s : State) (op : Op) (ha : s.agree) :
    (step F s op).state.agree := by
  cases op with
  | start env => exact udev_start_agree F env s ha
  | stop =>
    show (udev_stop s).state.agree
    rw [udev_stop_state]
    exact agree_init
  | handledata received =>
    cases received <;> exact ha

theorem run_agree (F : Bool) (ops : List Op) :
    ∀ s : State, s.agree → (run F s ops).state.agree := by
  induction ops with
  | nil => intro s ha; exact ha
  | cons op ops ih =>
    intro s ha
    exact ih _ (step_agree F s op ha)

theorem run_append (F : Bool) (ops₁ ops₂ : List Op) :
    ∀ s : State,
      (run F s (ops₁ ++ ops₂)).ret =
          (run F s ops₁).ret ++ (run F (run F s ops₁).state ops₂).ret ∧
        (run F s (ops₁ ++ ops₂)).state = (run F (run F s ops₁).state ops₂).state ∧
        (run F s (ops₁ ++ ops₂)).calls =
          (run F s ops₁).calls ++ (run F (run F s ops₁).state ops₂).calls := by
  induction ops₁ with
  | nil => intro s; simp [run]
  | cons op ops ih =>
    intro s
    obtain ⟨h1, h2, h3⟩ := ih (step F s op).state
    simp [run, h1, h2, h3]

theorem registeredAfter_append (reg : List Int) (cs₁ cs₂ : List Call) :
    registeredAfter reg (cs₁ ++ cs₂) = registeredAfter (registeredAfter reg cs₁) cs₂ := by
  simp [registeredAfter, List.foldl_append]

theorem udev_stop_registered (s : State) :
    registeredAfter s.registered (udev_stop s).calls = [] := by
  rcases s with ⟨u, m, fd⟩
  cases u <;> cases m <;> by_cases h : fd = -1 <;>
    simp [udev_stop, registeredAfter, eloop, State.registered, h]

theorem udev_handledata_registered (received : Option Device) (s : State) (reg : List Int) :
    registeredAfter reg (udev_handledata received s).calls = reg := by
  cases received with
  | none => simp [udev_handledata, registeredAfter, eloop]
  | some d =>
    simp only [udev_handledata]
    split_ifs <;> simp [registeredAfter, eloop]

theorem udev_start_registered (F : Bool) (env : StartEnv) (s : State) (ha : s.agree) :
    registeredAfter s.registered (udev_start F env s).calls =
      (udev_start F env s).state.registered := by
  cases hu : s.udev with
  | some u =>
    rw [udev_start_started F env s (by simp [hu])]
    simp [registeredAfter, eloop]
  | none =>
    have hs := eq_init_of_agree s hu ha
    subst hs
    rcases env with ⟨u, m, fr, er, fd, ar⟩
    cases u with
    | none => simp [udev_start, State.init, registeredAfter, eloop, State.registered]
    | some u =>
      cases m with
      | none =>
        simp [udev_start, udev_start_bad, udev_stop, State.init, registeredAfter, eloop,
          State.registered]
      | some m =>
        cases F <;> by_cases h1 : fr = 0 <;> by_cases h2 : er = 0 <;>
          by_cases h3 : fd = -1 <;> by_cases h4 : ar = -1 <;>
          simp [udev_start, udev_start_bad, udev_stop, State.init, registeredAfter, eloop,
            State.registered, h1, h2, h3, h4]

theorem step_registered (F : Bool) (s : State) (op : Op) (ha : s.agree) :
    registeredAfter s.registered (step F s op).calls = (step F s op).state.registered := by
  cases op with
  | start env => exact udev_start_registered F env s ha
  | stop =>
    show registeredAfter s.registered (udev_stop s).calls = (udev_stop s).state.registered
    rw [udev_stop_registered, udev_stop_state]
    simp [State.registered, State.init]
  | handledata received =>
    show registeredAfter s.registered (udev_handledata received s).calls = _
    rw [udev_handledata_registered]
    cases received <;> rfl

theorem run_registered (F : Bool) (ops : List Op) :
    ∀ s : State, s.agree →
      registeredAfter s.registered (run F s ops).calls = (run F s ops).state.registered := by
  induction ops with
  | nil => intro s _; simp [run, registeredAfter]
  | cons op ops ih =>
    intro s ha
    show registeredAfter s.registered
      ((step F s op).calls ++ (run F (step F s op).state ops).calls) = _
    rw [registeredAfter_append, step_registered F s op ha]
    exact ih _ (step_agree F s op ha)

theorem deregistersOnlyRegistered_append (cs₁ cs₂ : List Call) :
    ∀ reg : List Int,
      deregistersOnlyRegistered reg (cs₁ ++ cs₂) =
        (deregistersOnlyRegistered reg cs₁ &&
          deregistersOnlyRegistered (registeredAfter reg cs₁) cs₂) := by
  induction cs₁ with
  | nil => intro reg; simp [deregistersOnlyRegistered, registeredAfter]
  | cons c cs ih =>
    intro reg
    cases c <;>
      simp [deregistersOnlyRegistered, registeredAfter, eloop, ih, Bool.and_assoc]

theorem registrationFailed_append (cs₁ cs₂ : List Call) :
    registrationFailed (cs₁ ++ cs₂) =
      (registrationFailed cs₁ || registrationFailed cs₂) := by
  induction cs₁ with
  | nil => simp [registrationFailed]
  | cons c cs ih =>
    cases c <;> simp [registrationFailed, ih, Bool.or_assoc]

theorem udev_stop_deregistersOnlyRegistered (s : State) :
    deregistersOnlyRegistered s.registered (udev_stop s).calls = true := by
  rcases s with ⟨u, m, fd⟩
  cases u <;> cases m <;> by_cases h : fd = -1 <;>
    simp [udev_stop, deregistersOnlyRegistered, eloop, State.registered, h]

theorem udev_handledata_deregistersOnlyRegistered (received : Option Device) (s : State)
    (reg : List Int) :
    deregistersOnlyRegistered reg (udev_handledata received s).calls = true := by
  cases received with
  | none => simp [udev_handledata, deregistersOnlyRegistered, eloop]
  | some d =>
    simp only [udev_handledata]
    split_ifs <;> simp [deregistersOnlyRegistered, eloop]

theorem udev_start_deregistersOnlyRegistered (F : Bool) (env : StartEnv) (s : State)
    (ha : s.agree) (hreg : registrationFailed (udev_start F env s).calls = false) :
    deregistersOnlyRegistered s.registered (udev_start F env s).calls = true := by
  cases hu : s.udev with
  | some u =>
    rw [udev_start_started F env s (by simp [hu])]
    simp [deregistersOnlyRegistered, eloop]
  | none =>
    have hs := eq_init_of_agree s hu ha
    subst hs
    rcases env with ⟨u, m, fr, er, fd, ar⟩
    cases u with
    | none => simp [udev_start, State.init, deregistersOnlyRegistered, eloop, State.registered]
    | some u =>
      cases m with
      | none =>
        simp [udev_start, udev_start_bad, udev_stop, State.init, deregistersOnlyRegistered,
          eloop, State.registered]
      | some m =>
        revert hreg
        cases F <;> by_cases h1 : fr = 0 <;> by_cases h2 : er = 0 <;>
          by_cases h3 : fd = -1 <;> by_cases h4 : ar = -1 <;>
          simp [udev_start, udev_start_bad, udev_stop, State.init, deregistersOnlyRegistered,
            registrationFailed, eloop, State.registered, h1, h2, h3, h4]

theorem step_deregistersOnlyRegistered (F : Bool) (s : State) (op : Op) (ha : s.agree)
    (hreg : registrationFailed (step F s op).calls = false) :
    deregistersOnlyRegistered s.registered (step F s op).calls = true := by
  cases op with
  | start env => exact udev_start_deregistersOnlyRegistered F env s ha hreg
  | stop => exact udev_stop_deregistersOnlyRegistered s
  | handledata received =>
    exact udev_handledata_deregistersOnlyRegistered received s s.registered

theorem run_deregistersOnlyRegistered (F : Bool) (ops : List Op) :
    ∀ s : State, s.agree → registrationFailed (run F s ops).calls = false →
      deregistersOnlyRegistered s.registered (run F s ops).calls = true := by
  induction ops with
  | nil => intro s _ _; simp [run, deregistersOnlyRegistered]
  | cons op ops ih =>
    intro s ha hreg
    have hreg2 : registrationFailed
        ((step F s op).calls ++ (run F (step F s op).state ops).calls) = false := hreg
    rw [registrationFailed_append, Bool.or_eq_false_iff] at hreg2
    show deregistersOnlyRegistered s.registered
      ((step F s op).calls ++ (run F (step F s op).state ops).calls) = true
    rw [deregistersOnlyRegistered_append, step_registered F s op ha,
      step_deregistersOnlyRegistered F s op ha hreg2.1,
      ih _ (step_agree F s op ha) hreg2.2]
    rfl

theorem udev_start_eq_body (F : Bool) (env : StartEnv) (s : State) :
    udev_start F env s = udev_start_of_body (udev_start_body F env s) := by
  rcases env with ⟨u, m, fr, er, fd, ar⟩
  by_cases hs : s.udev.isSome = true
  · simp [udev_start, udev_start_body, udev_start_of_body, hs]
  · cases u with
    | none => simp [udev_start, udev_start_body, udev_start_of_body, hs]
    | some u =>
      cases m with
      | none => simp [udev_start, udev_start_body, udev_start_of_body, hs]
      | some m =>
        cases F <;> by_cases h1 : fr = 0 <;> by_cases h2 : er = 0 <;>
          by_cases h3 : fd = -1 <;> by_cases h4 : ar = -1 <;>
          simp [udev_start, udev_start_body, udev_start_of_body, hs, h1, h2, h3, h4]

theorem udev_start_body_cleanup (F : Bool) (env : StartEnv) (s : State) (ha : s.agree)
    (hbad : (udev_start_body F env s).ret = none)
    (hreg : registrationFailed (udev_start_body F env s).calls = false) :
    registeredAfter s.registered (udev_start_body F env s).calls = [] ∧
      deregistrations (udev_stop (udev_start_body F env s).state).calls = [] := by
  cases hu : s.udev with
  | some u =>
    simp [udev_start_body, hu] at hbad
  | none =>
    have hs := eq_init_of_agree s hu ha
    subst hs
    rcases env with ⟨u, m, fr, er, fd, ar⟩
    cases u with
    | none => simp [udev_start_body, State.init] at hbad
    | some u =>
      cases m with
      | none =>
        simp [udev_start_body, udev_stop, State.init, registeredAfter, eloop,
          State.registered, deregistrations]
      | some m =>
        revert hbad hreg
        cases F <;> by_cases h1 : fr = 0 <;> by_cases h2 : er = 0 <;>
          by_cases h3 : fd = -1 <;> by_cases h4 : ar = -1 <;>
          simp [udev_start_body, udev_stop, State.init, registeredAfter, eloop,
            State.registered, deregistrations, registrationFailed, h1, h2, h3, h4]

/-! ## The event handler -/

/-- C1: for a received (non-null) record whose device class is "net", the
handler makes exactly one notification `handle_interface(1, name)` when the
action is "add" or "move", exactly one notification
`handle_interface(-1, name)` when the action is "remove", and no notification
for any other action string; `name` is the record's device name. -/
theorem C1_handledata_net_notifications (s : State) (d : Device)
    (hnet : d.subsystem = "net") :
    ((d.action = "add" ∨ d.action = "move") →
        notifications (udev_handledata (some d) s).calls = [(1, d.sysname)]) ∧
      (d.action = "remove" →
        notifications (udev_handledata (some d) s).calls = [(-1, d.sysname)]) ∧
      (d.action ≠ "add" → d.action ≠ "move" → d.action ≠ "remove" →
        notifications (udev_handledata (some d) s).calls = []) := by
  refine ⟨?_, ?_, ?_⟩
  · intro h
    simp [udev_handledata, hnet, h, notifications]
  · intro h
    simp [udev_handledata, hnet, h, notifications]
  · intro h1 h2 h3
    simp [udev_handledata, hnet, h1, h2, h3, notifications]

/-- C1 at concrete records of class "net": "move" and "add" give one
`(1, "eth0")`, "remove" gives one `(-1, "eth0")`, "change" gives nothing. -/
theorem C1_handledata_net_notifications_witness :
    ("net" = "net") ∧
      notifications (udev_handledata (some ⟨"net", "eth0", "move", 1⟩) State.init).calls
        = [(1, "eth0")] ∧
      notifications (udev_handledata (some ⟨"net", "eth0", "add", 1⟩) State.init).calls
        = [(1, "eth0")] ∧
      notifications (udev_handledata (some ⟨"net", "eth0", "remove", 1⟩) State.init).calls
        = [(-1, "eth0")] ∧
      notifications (udev_handledata (some ⟨"net", "eth0", "change", 1⟩) State.init).calls
        = [] :=
  ⟨rfl,
    (C1_handledata_net_notifications State.init ⟨"net", "eth0", "move", 1⟩ rfl).1
      (Or.inr rfl),
    (C1_handledata_net_notifications State.init ⟨"net", "eth0", "add", 1⟩ rfl).1
      (Or.inl rfl),
    (C1_handledata_net_notifications State.init ⟨"net", "eth0", "remove", 1⟩ rfl).2.1 rfl,
    (C1_handledata_net_notifications State.init ⟨"net", "eth0", "change", 1⟩ rfl).2.2
      (by decide) (by decide) (by decide)⟩

/-- C2: when the monitor delivers a null record, or a record whose device
class is not "net" (whatever its action), the handler makes no daemon
notification and leaves the service handle, the monitor and the descriptor as
they were. -/
theorem C2_handledata_null_or_foreign_class (s : State) (received : Option Device)
    (h : ∀ d, received = some d → d.subsystem ≠ "net") :
    notifications (udev_handledata received s).calls = [] ∧
      (udev_handledata received s).state = s := by
  cases received with
  | none => simp [udev_handledata, notifications]
  | some d =>
    have hd : d.subsystem ≠ "net" := h d rfl
    simp [udev_handledata, hd, notifications]

/-- C2 at a null record and at records of class "usb" with the actions "add",
"move" and "remove", in a started state. -/
theorem C2_handledata_null_or_foreign_class_witness :
    (notifications (udev_handledata none ⟨some 1, some 2, 5⟩).calls = [] ∧
        (udev_handledata none ⟨some 1, some 2, 5⟩).state = ⟨some 1, some 2, 5⟩) ∧
      (notifications
          (udev_handledata (some ⟨"usb", "eth0", "add", 1⟩) ⟨some 1, some 2, 5⟩).calls = [] ∧
        (udev_handledata (some ⟨"usb", "eth0", "add", 1⟩) ⟨some 1, some 2, 5⟩).state
          = ⟨some 1, some 2, 5⟩) ∧
      (notifications
          (udev_handledata (some ⟨"usb", "eth0", "move", 1⟩) ⟨some 1, some 2, 5⟩).calls = [] ∧
        (udev_handledata (some ⟨"usb", "eth0", "move", 1⟩) ⟨some 1, some 2, 5⟩).state
          = ⟨some 1, some 2, 5⟩) ∧
      (notifications
          (udev_handledata (some ⟨"usb", "eth0", "remove", 1⟩) ⟨some 1, some 2, 5⟩).calls = [] ∧
        (udev_handledata (some ⟨"usb", "eth0", "remove", 1⟩) ⟨some 1, some 2, 5⟩).state
          = ⟨some 1, some 2, 5⟩) :=
  ⟨C2_handledata_null_or_foreign_class ⟨some 1, some 2, 5⟩ none (by intro d hd; cases hd),
    C2_handledata_null_or_foreign_class ⟨some 1, some 2, 5⟩ (some ⟨"usb", "eth0", "add", 1⟩)
      (by intro d hd; cases hd; decide),
    C2_handledata_null_or_foreign_class ⟨some 1, some 2, 5⟩ (some ⟨"usb", "eth0", "move", 1⟩)
      (by intro d hd; cases hd; decide),
    C2_handledata_null_or_foreign_class ⟨some 1, some 2, 5⟩ (some ⟨"usb", "eth0", "remove", 1⟩)
      (by intro d hd; cases hd; decide)⟩

/-! ## settled -/

/-- C8: `udev_settled` returns `0` when the service yields no device object
for class "net" and the given name, returns exactly the initialized status of
the device object otherwise, always returns (the function is total) and
leaves the service handle, the monitor and the descriptor unchanged. -/
theorem C8_settled (svc : Service) (ifname : String) (s : State) :
    (svc.udev_device_new_from_subsystem_sysname s.udev "net" ifname = none →
        (udev_settled svc ifname s).ret = 0) ∧
      (∀ d, svc.udev_device_new_from_subsystem_sysname s.udev "net" ifname = some d →
        (udev_settled svc ifname s).ret = d.is_initialized) ∧
      (udev_settled svc ifname s).state = s := by
  refine ⟨?_, ?_, ?_⟩
  · intro h
    simp [udev_settled, h]
  · intro d h
    simp [udev_settled, h]
  · cases h : svc.udev_device_new_from_subsystem_sysname s.udev "net" ifname <;>
      simp [udev_settled, h]

/-- C8 with a service that knows only "eth0" (initialized status 1), asked
from the never-started state: "nonexistent-if" is not settled, "eth0" is. -/
theorem C8_settled_witness :
    (udev_settled ⟨fun _ _ n => if n = "eth0" then some ⟨"net", "eth0", "", 1⟩ else none⟩
        "nonexistent-if" State.init).ret = 0 ∧
      (udev_settled ⟨fun _ _ n => if n = "eth0" then some ⟨"net", "eth0", "", 1⟩ else none⟩
        "eth0" State.init).ret = 1 :=
  ⟨(C8_settled ⟨fun _ _ n => if n = "eth0" then some ⟨"net", "eth0", "", 1⟩ else none⟩
      "nonexistent-if" State.init).1 (by decide),
    (C8_settled ⟨fun _ _ n => if n = "eth0" then some ⟨"net", "eth0", "", 1⟩ else none⟩
      "eth0" State.init).2.1 ⟨"net", "eth0", "", 1⟩ (by decide)⟩

/-! ## stop -/

/-- C7: from any state `udev_stop` ends with the service handle not held, the
monitor not held and the stored descriptor `-1`; in the never-started state
(which is also the state every stop leaves) it changes nothing and makes no
call at all, so no deregister or release call; and two consecutive stops
leave the same state and the same external calls as one stop. -/
theorem C7_stop_idempotent (F : Bool) (s : State) :
    ((udev_stop s).state.udev = none ∧ (udev_stop s).state.monitor = none ∧
        (udev_stop s).state.monitor_fd = -1) ∧
      ((udev_stop State.init).state = State.init ∧ (udev_stop State.init).calls = []) ∧
      ((udev_stop (udev_stop s).state).state = (udev_stop s).state ∧
        (udev_stop (udev_stop s).state).calls = []) ∧
      ((run F s [Op.stop, Op.stop]).state = (run F s [Op.stop]).state ∧
        (run F s [Op.stop, Op.stop]).calls = (run F s [Op.stop]).calls) := by
  have h1 := udev_stop_state s
  have h2 := udev_stop_state State.init
  have h3 := udev_stop_calls_init
  refine ⟨?_, ⟨h2, h3⟩, ?_, ?_⟩
  · rw [h1]
    simp [State.init]
  · rw [h1]
    exact ⟨h2, h3⟩
  · simp [run, step, h1, h2, h3]

/-! ## start -/

/-- C4: `udev_start` called while the service handle is held returns `-1` and
leaves the three variables as they were; its only external call is the error
log line, so it opens no handle or monitor and neither registers with nor
deregisters from the event loop. -/
theorem C4_start_while_started (F : Bool) (env : StartEnv) (s : State)
    (h : s.udev.isSome = true) :
    (udev_start F env s).ret = -1 ∧
      (udev_start F env s).state = s ∧
      (udev_start F env s).calls =
        [Call.syslog Priority.LOG_ERR "udev: already started"] ∧
      (∀ c ∈ (udev_start F env s).calls, c.acquires = false ∧ c.releases = false) := by
  rw [udev_start_started F env s h]
  simp [Call.acquires, Call.releases]

/-- C4 in a started state, with a start whose every step would succeed. -/
theorem C4_start_while_started_witness :
    (State.mk (some 1) (some 2) 5).udev.isSome = true ∧
      (udev_start true ⟨some 3, some 4, 0, 0, 6, 0⟩ ⟨some 1, some 2, 5⟩).ret = -1 ∧
      (udev_start true ⟨some 3, some 4, 0, 0, 6, 0⟩ ⟨some 1, some 2, 5⟩).state
        = ⟨some 1, some 2, 5⟩ ∧
      (udev_start true ⟨some 3, some 4, 0, 0, 6, 0⟩ ⟨some 1, some 2, 5⟩).calls =
        [Call.syslog Priority.LOG_ERR "udev: already started"] :=
  ⟨rfl,
    (C4_start_while_started true ⟨some 3, some 4, 0, 0, 6, 0⟩ ⟨some 1, some 2, 5⟩ rfl).1,
    (C4_start_while_started true ⟨some 3, some 4, 0, 0, 6, 0⟩ ⟨some 1, some 2, 5⟩ rfl).2.1,
    (C4_start_while_started true ⟨some 3, some 4, 0, 0, 6, 0⟩ ⟨some 1, some 2, 5⟩ rfl).2.2.1⟩

/-- C6: `udev_start` called with the service handle not held, every step
succeeding, returns the descriptor `udev_monitor_get_fd` gave for the monitor
just created; that descriptor was passed to `eloop_event_add` together with
`udev_handledata` and is registered afterwards; the three variables hold the
new handle, the new monitor and that descriptor, and `udev_listening` is
`1`. -/
theorem C6_start_success (F : Bool) (env : StartEnv) (s : State)
    (hs : s.udev = none) (hok : env.allStepsSucceed F) :
    (udev_start F env s).ret = env.udev_monitor_get_fd ∧
      (∃ m, env.udev_monitor_new_from_netlink = some m ∧
        Call.udev_monitor_get_fd m (udev_start F env s).ret ∈ (udev_start F env s).calls) ∧
      Call.eloop_event_add (udev_start F env s).ret Callback.udev_handledata
        env.eloop_event_add ∈ (udev_start F env s).calls ∧
      registeredAfter [] (udev_start F env s).calls = [(udev_start F env s).ret] ∧
      ((udev_start F env s).state.udev = env.udev_new ∧
        (udev_start F env s).state.udev.isSome = true) ∧
      ((udev_start F env s).state.monitor = env.udev_monitor_new_from_netlink ∧
        (udev_start F env s).state.monitor.isSome = true) ∧
      ((udev_start F env s).state.monitor_fd = (udev_start F env s).ret ∧
        (udev_start F env s).state.monitor_fd ≠ -1) ∧
      udev_listening (udev_start F env s).state = 1 := by
  rcases env with ⟨u, m, fr, er, fd, ar⟩
  rcases s with ⟨su, sm, sfd⟩
  simp only [StartEnv.allStepsSucceed] at hok
  obtain ⟨hu, hm, hfr, her, hfd, har⟩ := hok
  simp only at hs
  subst hs
  cases u with
  | none => simp at hu
  | some u =>
    cases m with
    | none => simp at hm
    | some m =>
      cases F <;> simp_all [udev_start, udev_listening, registeredAfter, eloop]

/-- C6 at a start from the initial state, built with the filter: handle 1,
monitor 2, descriptor 5. -/
theorem C6_start_success_witness :
    State.init.udev = none ∧
      StartEnv.allStepsSucceed true ⟨some 1, some 2, 0, 0, 5, 0⟩ ∧
      (udev_start true ⟨some 1, some 2, 0, 0, 5, 0⟩ State.init).ret = 5 ∧
      Call.eloop_event_add (udev_start true ⟨some 1, some 2, 0, 0, 5, 0⟩ State.init).ret
        Callback.udev_handledata 0
        ∈ (udev_start true ⟨some 1, some 2, 0, 0, 5, 0⟩ State.init).calls ∧
      udev_listening (udev_start true ⟨some 1, some 2, 0, 0, 5, 0⟩ State.init).state = 1 :=
  ⟨rfl, by simp [StartEnv.allStepsSucceed],
    (C6_start_success true ⟨some 1, some 2, 0, 0, 5, 0⟩ State.init rfl
      (by simp [StartEnv.allStepsSucceed])).1,
    (C6_start_success true ⟨some 1, some 2, 0, 0, 5, 0⟩ State.init rfl
      (by simp [StartEnv.allStepsSucceed])).2.2.1,
    (C6_start_success true ⟨some 1, some 2, 0, 0, 5, 0⟩ State.init rfl
      (by simp [StartEnv.allStepsSucceed])).2.2.2.2.2.2.2⟩

/-! ## Sequences of start, stop and handler calls -/

/-- C10: in every state reached from the initial state by a sequence of
start, stop and event-handler calls, whatever the external steps return, the
service handle is held iff the monitor is held iff the stored descriptor is
not `-1`; the state is either the fully stopped one or has all three held; and
the guard of `udev_start` (handle held) agrees with `udev_listening`. -/
theorem C10_variables_agree (F : Bool) (ops : List Op) :
    ((run F State.init ops).state.udev.isSome = true ↔
        (run F State.init ops).state.monitor.isSome = true) ∧
      ((run F State.init ops).state.monitor.isSome = true ↔
        (run F State.init ops).state.monitor_fd ≠ -1) ∧
      ((run F State.init ops).state = State.init ∨
        ((run F State.init ops).state.udev.isSome = true ∧
          (run F State.init ops).state.monitor.isSome = true ∧
          (run F State.init ops).state.monitor_fd ≠ -1)) ∧
      ((run F State.init ops).state.udev.isSome = true ↔
        udev_listening (run F State.init ops).state = 1) := by
  have ha := run_agree F ops State.init agree_init
  generalize (run F State.init ops).state = s at ha
  refine ⟨ha.1, ha.2, ?_, ?_⟩
  · cases hu : s.udev with
    | none => exact Or.inl (eq_init_of_agree s hu ha)
    | some u =>
      have h1 : s.udev.isSome = true := by simp [hu]
      have h2 := ha.1.1 h1
      exact Or.inr ⟨rfl, h2, ha.2.1 h2⟩
  · rw [ha.1]
    cases hm : s.monitor <;> simp [udev_listening, hm]

/-- C3, as stated, fails: after a successful start followed by a second
start (which is refused with `-1` because the adapter is already started)
`udev_listening` is `1`, although the most recent start did not succeed. -/
theorem C3_counterexample :
    (run false State.init
        [Op.start ⟨some 1, some 2, 0, 0, 5, 0⟩, Op.start ⟨some 3, some 4, 0, 0, 6, 0⟩]).ret
        = [Done.start 5, Done.start (-1)] ∧
      ¬ (udev_listening (run false State.init
          [Op.start ⟨some 1, some 2, 0, 0, 5, 0⟩, Op.start ⟨some 3, some 4, 0, 0, 6, 0⟩]).state
          = 1 ↔
        lastStartSucceededNoStopSince (run false State.init
          [Op.start ⟨some 1, some 2, 0, 0, 5, 0⟩,
            Op.start ⟨some 3, some 4, 0, 0, 6, 0⟩]).ret.reverse = true) := by
  decide

/-- C3, amended: after any sequence of start, stop and handler calls from the
initial state, whatever the external steps return, `udev_listening` is `1`
exactly when some start call of the sequence succeeded and no stop call has
followed that start. -/
theorem C3_listening_after_sequence (F : Bool) (ops : List Op) :
    udev_listening (run F State.init ops).state = 1 ↔
      someStartSucceededNoStopSince (run F State.init ops).ret.reverse = true := by
  induction ops using List.reverseRecOn with
  | nil => simp [run, udev_listening, State.init, someStartSucceededNoStopSince]
  | append_singleton ops op ih =>
    obtain ⟨h1, h2, -⟩ := run_append F ops [op] State.init
    have ha := run_agree F ops State.init agree_init
    rw [h1, h2]
    generalize (run F State.init ops).state = s at ih ha
    generalize (run F State.init ops).ret = done at ih
    cases op with
    | start env =>
      have hl := udev_start_listening F env s ha
      simp only [run, step, List.reverse_append, List.reverse_cons, List.reverse_nil,
        List.nil_append, List.singleton_append, someStartSucceededNoStopSince]
      rw [hl, ih]
      by_cases hret : startSucceeded (udev_start F env s).ret = true <;> simp [hret]
    | stop =>
      simp [run, step, udev_stop_state, udev_listening, State.init,
        someStartSucceededNoStopSince]
    | handledata received =>
      have hst : (udev_handledata received s).state = s := by
        cases received <;> rfl
      simp only [run, step, List.reverse_append, List.reverse_cons, List.reverse_nil,
        List.nil_append, List.singleton_append, someStartSucceededNoStopSince, hst]
      exact ih

/-- C9, as stated, fails: when `eloop_event_add` fails, the cleanup stop of
that start calls `eloop_event_delete(5)` although descriptor 5 was never
registered with the event loop. -/
theorem C9_counterexample :
    (udev_start false ⟨some 1, some 2, 0, 0, 5, -1⟩ State.init).calls =
        [Call.syslog Priority.LOG_DEBUG "udev: starting",
          Call.udev_new (some 1),
          Call.udev_monitor_new_from_netlink 1 "udev" (some 2),
          Call.udev_monitor_enable_receiving 2 0,
          Call.udev_monitor_get_fd 2 5,
          Call.eloop_event_add 5 Callback.udev_handledata (-1),
          Call.syslog Priority.LOG_ERR "udev_start: eloop_event_add: %m",
          Call.eloop_event_delete 5,
          Call.udev_monitor_unref 2,
          Call.udev_unref 1] ∧
      deregistersOnlyRegistered []
        (run false State.init [Op.start ⟨some 1, some 2, 0, 0, 5, -1⟩]).calls = false := by
  decide

/-- C9, amended: leaving aside the cleanup of a start whose own registration
with the event loop failed, every run of `udev_stop` deregisters the
descriptor exactly when it is registered. For every sequence `ops` of start,
stop and handler calls from the initial state and every start `env` made
next:
(1) a stop called after `ops` deregisters exactly the descriptors registered
with the event loop at that moment (the stored one when there is one, none
otherwise), so it names no descriptor that is not registered;
(2) when that next start jumps to `bad:` and its own `eloop_event_add` did not
fail, its cleanup stop deregisters exactly the descriptors registered at that
moment (there are none, and it deregisters none), whatever happened in `ops`;
(3) when the next start's own `eloop_event_add` did not fail, no
`eloop_event_delete` among its calls names a descriptor that is not
registered when the call is made, whatever happened in `ops`;
(4) in a sequence in which no `eloop_event_add` failed, no
`eloop_event_delete` at all names a descriptor that is not registered. -/
theorem C9_stop_deregisters_registered (F : Bool) (ops : List Op) (env : StartEnv) :
    (deregistrations (udev_stop (run F State.init ops).state).calls =
        registeredAfter [] (run F State.init ops).calls ∧
      deregistersOnlyRegistered (registeredAfter [] (run F State.init ops).calls)
        (udev_stop (run F State.init ops).state).calls = true) ∧
      ((udev_start_body F env (run F State.init ops).state).ret = none →
        registrationFailed (udev_start_body F env (run F State.init ops).state).calls = false →
        (udev_start F env (run F State.init ops).state =
            udev_start_bad (udev_start_body F env (run F State.init ops).state).state
              (udev_start_body F env (run F State.init ops).state).calls ∧
          deregistrations
              (udev_stop (udev_start_body F env (run F State.init ops).state).state).calls =
            registeredAfter [] ((run F State.init ops).calls ++
              (udev_start_body F env (run F State.init ops).state).calls) ∧
          deregistrations
              (udev_stop (udev_start_body F env (run F State.init ops).state).state).calls
            = [])) ∧
      (registrationFailed (udev_start F env (run F State.init ops).state).calls = false →
        deregistersOnlyRegistered (registeredAfter [] (run F State.init ops).calls)
          (udev_start F env (run F State.init ops).state).calls = true) ∧
      (registrationFailed (run F State.init ops).calls = false →
        deregistersOnlyRegistered [] (run F State.init ops).calls = true) := by
  have hreg := run_registered F ops State.init agree_init
  have ha := run_agree F ops State.init agree_init
  have hinit : State.init.registered = [] := by simp [State.registered, State.init]
  rw [hinit] at hreg
  refine ⟨⟨?_, ?_⟩, ?_, ?_, ?_⟩
  · rw [hreg, udev_stop_deregistrations]
    rfl
  · rw [hreg]
    exact udev_stop_deregistersOnlyRegistered _
  · intro hbad hnofail
    obtain ⟨h1, h2⟩ := udev_start_body_cleanup F env _ ha hbad hnofail
    refine ⟨?_, ?_, h2⟩
    · rw [udev_start_eq_body, udev_start_of_body, hbad]
    · rw [registeredAfter_append, hreg, h1, h2]
  · intro h
    rw [hreg]
    exact udev_start_deregistersOnlyRegistered F env _ ha h
  · intro h
    have := run_deregistersOnlyRegistered F ops State.init agree_init h
    rw [hinit] at this
    exact this

/-- C9, amended, on concrete sequences. (a) After a start whose registration
of descriptor 5 failed, a start that fails at `udev_monitor_enable_receiving`
jumps to `bad:` without a failed registration of its own, and its cleanup stop
deregisters nothing, nothing being registered. (b) The calls of that second
start name no unregistered descriptor. (c) After a successful start with
descriptor 5 a stop deregisters exactly 5. (d) In a sequence without any
failed registration every deregistration names a registered descriptor. -/
theorem C9_stop_deregisters_registered_witness :
    ((udev_start_body true ⟨some 3, some 4, 0, 7, 6, 0⟩
          (run true State.init [Op.start ⟨some 1, some 2, 0, 0, 5, -1⟩]).state).ret = none ∧
        registrationFailed (udev_start_body true ⟨some 3, some 4, 0, 7, 6, 0⟩
          (run true State.init [Op.start ⟨some 1, some 2, 0, 0, 5, -1⟩]).state).calls = false ∧
        deregistrations (udev_stop (udev_start_body true ⟨some 3, some 4, 0, 7, 6, 0⟩
          (run true State.init [Op.start ⟨some 1, some 2, 0, 0, 5, -1⟩]).state).state).calls
          = []) ∧
      deregistersOnlyRegistered
        (registeredAfter [] (run true State.init [Op.start ⟨some 1, some 2, 0, 0, 5, -1⟩]).calls)
        (udev_start true ⟨some 3, some 4, 0, 7, 6, 0⟩
          (run true State.init [Op.start ⟨some 1, some 2, 0, 0, 5, -1⟩]).state).calls = true ∧
      deregistrations (udev_stop (run true State.init
        [Op.start ⟨some 3, some 4, 0, 0, 5, 0⟩]).state).calls = [5] ∧
      (registrationFailed (run true State.init
          [Op.start ⟨some 1, some 2, 0, 0, -1, 0⟩, Op.stop,
            Op.start ⟨some 3, some 4, 0, 0, 5, 0⟩, Op.handledata none, Op.stop]).calls = false ∧
        deregistersOnlyRegistered [] (run true State.init
          [Op.start ⟨some 1, some 2, 0, 0, -1, 0⟩, Op.stop,
            Op.start ⟨some 3, some 4, 0, 0, 5, 0⟩, Op.handledata none, Op.stop]).calls = true) :=
  ⟨⟨by decide, by decide,
      ((C9_stop_deregisters_registered true [Op.start ⟨some 1, some 2, 0, 0, 5, -1⟩]
        ⟨some 3, some 4, 0, 7, 6, 0⟩).2.1 (by decide) (by decide)).2.2⟩,
    (C9_stop_deregisters_registered true [Op.start ⟨some 1, some 2, 0, 0, 5, -1⟩]
      ⟨some 3, some 4, 0, 7, 6, 0⟩).2.2.1 (by decide),
    (C9_stop_deregisters_registered true [Op.start ⟨some 3, some 4, 0, 0, 5, 0⟩]
      ⟨some 1, some 2, 0, 0, 5, 0⟩).1.1.trans (by decide),
    by decide,
    (C9_stop_deregisters_registered true
      [Op.start ⟨some 1, some 2, 0, 0, -1, 0⟩, Op.stop,
        Op.start ⟨some 3, some 4, 0, 0, 5, 0⟩, Op.handledata none, Op.stop]
      ⟨some 1, some 2, 0, 0, 5, 0⟩).2.2.2 (by decide)⟩

end Udev
